import Mathlib

/-!
Verification development for the sport-data-scraper repository
(src/scraper/nfl/injuries.py and src/scraper/nfl/players.py).

The Python code is shallowly embedded: strings that the code computes on
are modelled as `List Char`; opaque string payloads (table cell text,
datatip labels, period codes, messages) stay `String`; Python exceptions
become an inductive `PyError`; a function that can raise returns
`Except PyError _`; network access is modelled by passing the fetched
page (or a page oracle) as an explicit argument, so that a result that
holds for every oracle provably does not depend on the network.
-/

namespace Scraper

/-- Python exception classes that the two scripts can raise.  Each
constructor carries the exception message. -/
inductive PyError where
  | assertionError (msg : String)
  | injuryDataNotAvailableError (msg : String)
  | valueError (msg : String)
  | indexError (msg : String)
  | typeError (msg : String)
  | attributeError (msg : String)
  | keyError (msg : String)
deriving DecidableEq, Repr

deriving instance DecidableEq for Except

/-- Class name of a Python exception value, as `type(e).__name__`. -/
def PyError.className : PyError → String
  | .assertionError _ => "AssertionError"
  | .injuryDataNotAvailableError _ => "InjuryDataNotAvailableError"
  | .valueError _ => "ValueError"
  | .indexError _ => "IndexError"
  | .typeError _ => "TypeError"
  | .attributeError _ => "AttributeError"
  | .keyError _ => "KeyError"

/-- Class name of the error of a failed call, `none` on success. -/
def errClass? {α : Type} : Except PyError α → Option String
  | .error e => some e.className
  | .ok _ => none

/-- Fuel-driven worker for `pySplit`.  Consumes at least one character of
the input per step when the separator is nonempty, so fuel `length + 1`
is always enough. -/
def pySplitAux (sep : List Char) : Nat → List Char → List Char → List (List Char)
  | 0, l, acc => [acc.reverse ++ l]
  | _ + 1, [], acc => [acc.reverse]
  | fuel + 1, c :: rest, acc =>
    if sep.isPrefixOf (c :: rest) then
      acc.reverse :: pySplitAux sep fuel (List.drop sep.length (c :: rest)) []
    else
      pySplitAux sep fuel rest (c :: acc)

/-- Python `str.split(sep)` with an explicit nonempty separator: splits on
every non-overlapping occurrence of `sep`, keeping empty pieces. -/
def pySplit (sep l : List Char) : List (List Char) :=
  pySplitAux sep (l.length + 1) l []

/-- Python `str.split()` (no argument): split on runs of whitespace,
dropping empty pieces.  `acc` is the current word, reversed. -/
def pySplitWsAux : List Char → List Char → List (List Char)
  | [], acc => if acc.isEmpty then [] else [acc.reverse]
  | c :: rest, acc =>
    if c.isWhitespace then
      if acc.isEmpty then pySplitWsAux rest [] else acc.reverse :: pySplitWsAux rest []
    else
      pySplitWsAux rest (c :: acc)

/-- Python `str.split()` with no argument. -/
def pySplitWs (l : List Char) : List (List Char) :=
  pySplitWsAux l []

/-- Numeric value of a digit string (assumes all characters are digits). -/
def digitsToNat (l : List Char) : Nat :=
  l.foldl (fun n c => 10 * n + (c.toNat - 48)) 0

/-- Python `int(s)` on a string: an optional sign followed by at least one
decimal digit parses; anything else raises `ValueError` (modelled as
`none`). -/
def pyInt? : List Char → Option Int
  | '-' :: rest =>
    if rest.isEmpty || !rest.all Char.isDigit then none
    else some (-(digitsToNat rest : Int))
  | '+' :: rest =>
    if rest.isEmpty || !rest.all Char.isDigit then none
    else some (digitsToNat rest : Int)
  | l =>
    if l.isEmpty || !l.all Char.isDigit then none
    else some (digitsToNat l : Int)

/-- Python `int(x)` truncation toward zero applied to the exact value of
`f * 30.48 + i * 2.48`: the value is the rational
`(f * 3048 + i * 248) / 100`, and `Int.div` is T-division (truncation
toward zero), matching `int()` on the float result. -/
def trunc_cm_formula (f i : Int) : Int :=
  (f * 3048 + i * 248).tdiv 100

/-- Embedding of `ft_in_to_cm` (players.py, lines 62-70): split the
input on the delimiter, parse pieces 0 and 1 as integers, and return
`int(fts * 30.48 + inches * 2.48)`.  Missing pieces raise `IndexError`;
non-integer pieces raise `ValueError` from `int()`. -/
def ft_in_to_cm (ft_in : List Char) (delimiter : List Char := ['-']) :
    Except PyError Int :=
  let ft_in_split_str := pySplit delimiter ft_in
  match ft_in_split_str[0]? with
  | none => .error (.indexError "list index out of range")
  | some fts =>
    match ft_in_split_str[1]? with
    | none => .error (.indexError "list index out of range")
    | some inches =>
      match pyInt? fts with
      | none => .error (.valueError "invalid literal for int() with base 10")
      | some f =>
        match pyInt? inches with
        | none => .error (.valueError "invalid literal for int() with base 10")
        | some i =>
          .ok (trunc_cm_formula f i)

/-! Injury report collector (src/scraper/nfl/injuries.py). -/

/-- Embedding of `NFL_SEASON_PERIOD_LIST` (injuries.py, lines 20-43). -/
def NFL_SEASON_PERIOD_LIST : List String :=
  ["REG1", "REG2", "REG3", "REG4", "REG5", "REG6", "REG7", "REG8", "REG9",
   "REG10", "REG11", "REG12", "REG13", "REG14", "REG15", "REG16", "REG17",
   "POST1", "POST2", "POST3", "PRO1", "POST4"]

/-- Embedding of `NFL_SEASON_YEAR_LIST = np.arange(2000, 2022, 1)`:
the years 2000, 2001, ..., 2021. -/
def NFL_SEASON_YEAR_LIST : List Int :=
  (List.range 22).map (fun k => 2000 + (k : Int))

/-- Default message of `InjuryDataNotAvailableError` (injuries.py,
lines 48-57). -/
def INJURY_NOT_AVAILABLE_MSG : String :=
  "Could not find any injury details here, please check if the year or the period exists (e.g. not in the future)."

/-- Message of the year-bound `assert` (injuries.py, lines 63-65). -/
def YEAR_ASSERT_MSG : String :=
  "The year must be between 1965 and this year!"

/-- Message of the period-membership `assert` (injuries.py, lines 66-68). -/
def PERIOD_ASSERT_MSG : String :=
  "Please enter a valid NFL season period code! Refer to the Documentation."

/-- One row of a source HTML injury table as read by `pd.read_html`:
`cells` stands for all other columns (opaque payload); `injuries` is the
value of the "Injuries" column, `none` when it is NaN/absent. -/
structure RawInjuryRow where
  cells : String
  injuries : Option String
deriving DecidableEq, Repr

/-- One `<table>` tag on a fetched injuries page.  `hasInjuryReportClass`
records whether its class attribute is
`"d3-o-table d3-o-table--detailed d3-o-reports--detailed"`, the class the
`find_all` call selects on. -/
structure HtmlTable where
  hasInjuryReportClass : Bool
  rows : List RawInjuryRow
deriving DecidableEq, Repr

/-- A fetched injuries page: the list of its `<table>` tags in document
order. -/
structure InjuryPage where
  tables : List HtmlTable
deriving DecidableEq, Repr

/-- A row of the returned injury DataFrame: the source row plus the
appended `Year` and `Period` columns. -/
structure InjuryRow where
  cells : String
  injuries : Option String
  year : Int
  period : String
deriving DecidableEq, Repr

/-- A pandas DataFrame of injury rows: each row carries its integer
index (pandas indices survive `pd.concat` and are only renumbered by
`reset_index`). -/
structure InjuryDF where
  entries : List (Nat × InjuryRow)
deriving DecidableEq, Repr

/-- Row annotation performed by `injury_df["Year"] = year` and
`injury_df["Period"] = period`. -/
def tagRow (year : Int) (period : String) (r : RawInjuryRow) : InjuryRow :=
  ⟨r.cells, r.injuries, year, period⟩

/-- Rows of one table as produced by `pd.read_html`: a fresh zero-based
index per table. -/
def tableEntries (t : HtmlTable) : List (Nat × RawInjuryRow) :=
  (List.range t.rows.length).zip t.rows

/-- Embedding of `get_injury_report_df` (injuries.py, lines 60-84).
Network access is modelled by the `fetchPage` oracle giving the page the
URL for `(year, period)` resolves to, and `int(datetime.today().strftime("%Y"))`
by the explicit `currentYear`.  The two `assert` statements raise
`AssertionError` (in order: year bound, then period membership) before
the page is consulted; with no matching table the function raises
`InjuryDataNotAvailableError`; otherwise the matching tables are
concatenated, tagged with year and period, rows with a missing
"Injuries" value dropped, and the index renumbered from zero. -/
def get_injury_report_df (fetchPage : Int → String → InjuryPage)
    (currentYear year : Int) (period : String) : Except PyError InjuryDF :=
  if ¬(1965 ≤ year ∧ year ≤ currentYear) then
    .error (.assertionError YEAR_ASSERT_MSG)
  else if period ∉ NFL_SEASON_PERIOD_LIST then
    .error (.assertionError PERIOD_ASSERT_MSG)
  else
    let page := fetchPage year period
    let injury_report_table_tags_list := page.tables.filter (·.hasInjuryReportClass)
    if injury_report_table_tags_list.length = 0 then
      .error (.injuryDataNotAvailableError INJURY_NOT_AVAILABLE_MSG)
    else
      let concatEntries := (injury_report_table_tags_list.map tableEntries).flatten
      let tagged := concatEntries.map (fun e => (e.1, tagRow year period e.2))
      let kept := tagged.filter (fun e => e.2.injuries.isSome)
      .ok ⟨(List.range kept.length).zip (kept.map (·.2))⟩

/-- The rows `get_injury_report_df` is specified to return: all rows of
the matching tables concatenated in order, annotated with year and
period, with the rows lacking an "Injuries" value dropped. -/
def expected_injury_rows (page : InjuryPage) (year : Int) (period : String) :
    List InjuryRow :=
  ((((page.tables.filter (·.hasInjuryReportClass)).map (·.rows)).flatten).map
      (tagRow year period)).filter (fun r => r.injuries.isSome)

/-- Inner loop of `scrape_nfl_injury_data` (injuries.py, lines 95-102)
for one year: try each period in order, append the result on success,
skip the pair on `InjuryDataNotAvailableError`, and let any other
exception propagate. -/
def collectPeriods (fetchPage : Int → String → InjuryPage)
    (currentYear year : Int) : List String → Except PyError (List InjuryDF)
  | [] => .ok []
  | p :: rest =>
    match get_injury_report_df fetchPage currentYear year p with
    | .ok temp_df =>
      match collectPeriods fetchPage currentYear year rest with
      | .ok dfs => .ok (temp_df :: dfs)
      | .error e => .error e
    | .error (.injuryDataNotAvailableError _) =>
      collectPeriods fetchPage currentYear year rest
    | .error e => .error e

/-- Outer loop of `scrape_nfl_injury_data` (injuries.py, lines 92-102):
iterate the years, collecting the per-pair results in order. -/
def collectYears (fetchPage : Int → String → InjuryPage)
    (currentYear : Int) (periods : List String) :
    List Int → Except PyError (List InjuryDF)
  | [] => .ok []
  | y :: rest =>
    match collectPeriods fetchPage currentYear y periods with
    | .error e => .error e
    | .ok dfs =>
      match collectYears fetchPage currentYear periods rest with
      | .error e => .error e
      | .ok more => .ok (dfs ++ more)

/-- Embedding of `pd.concat` on a list of DataFrames: raises
`ValueError ("No objects to concatenate")` on an empty list, otherwise
concatenates the rows, keeping each frame's own indices. -/
def pd_concat_dfs : List InjuryDF → Except PyError InjuryDF
  | [] => .error (.valueError "No objects to concatenate")
  | dfs => .ok ⟨(dfs.map (·.entries)).flatten⟩

/-- Embedding of `scrape_nfl_injury_data` (injuries.py, lines 87-104):
loop over the Cartesian product of years and periods, skip unavailable
pairs, and `pd.concat` the collected list. -/
def scrape_nfl_injury_data (fetchPage : Int → String → InjuryPage)
    (currentYear : Int) (years : List Int := NFL_SEASON_YEAR_LIST)
    (periods : List String := NFL_SEASON_PERIOD_LIST) :
    Except PyError InjuryDF :=
  match collectYears fetchPage currentYear periods years with
  | .error e => .error e
  | .ok scraped_output_df_list => pd_concat_dfs scraped_output_df_list

/-- The per-pair results that succeed, in iteration order of the
Cartesian product years × periods. -/
def successful_dfs (fetchPage : Int → String → InjuryPage)
    (currentYear : Int) (years : List Int) (periods : List String) :
    List InjuryDF :=
  years.flatMap (fun y =>
    periods.filterMap (fun p =>
      (get_injury_report_df fetchPage currentYear y p).toOption))

/-! Player profile collector (src/scraper/nfl/players.py). -/

/-- Embedding of `ALPHABETS_LIST = [letter for letter in string.ascii_uppercase]`. -/
def ALPHABETS_LIST : List Char :=
  "ABCDEFGHIJKLMNOPQRSTUVWXYZ".toList

/-- Whether `pat` occurs as a contiguous substring of `l`. -/
def containsSub (pat : List Char) : List Char → Bool
  | [] => pat.isEmpty
  | c :: rest => pat.isPrefixOf (c :: rest) || containsSub pat rest

/-- Search semantics of the compiled pattern
`(\/players\/<letter>\/)(.*)(\.htm)` on an href (BeautifulSoup matches
attribute regexes with `search`): some occurrence of `pat1` is followed,
at or after its end, by an occurrence of `pat2`. -/
def searchTwoPats (pat1 pat2 : List Char) : List Char → Bool
  | [] => false
  | c :: rest =>
    (pat1.isPrefixOf (c :: rest) &&
        containsSub pat2 (List.drop pat1.length (c :: rest)))
      || searchTwoPats pat1 pat2 rest

/-- The href filter of the `find_all` call in `gather_player_links`
(players.py, lines 45-47). -/
def hrefMatchesPlayerLink (letter : Char) (href : List Char) : Bool :=
  searchTwoPats ("/players/".toList ++ [letter] ++ ['/']) (".htm".toList) href

/-- The grandparent tag of an anchor, of which only the text is read. -/
structure GrandparentTag where
  text : List Char
deriving DecidableEq, Repr

/-- The parent tag of an anchor: its tag name and its own parent.
`parent = none` models a parent whose `.parent` attribute is `None`. -/
structure ParentTag where
  name : List Char
  parent : Option GrandparentTag
deriving DecidableEq, Repr

/-- An `<a>` tag with an href on a player-index page.  `parent = none`
models `tag.parent` being `None`. -/
structure Anchor where
  href : List Char
  parent : Option ParentTag
deriving DecidableEq, Repr

/-- Embedding of `int(tag.parent.parent.text.split()[-1].split("-")[0])`
(players.py, line 53): the first year of the year-range text.  An empty
whitespace-split raises `IndexError` from `[-1]`; a non-integer first
dash-piece raises `ValueError` from `int()`; neither is caught by the
surrounding `except AttributeError`. -/
def first_start_year (gp : GrandparentTag) : Except PyError Int :=
  match (pySplitWs gp.text).getLast? with
  | none => .error (.indexError "list index out of range")
  | some lastTok =>
    match pyInt? ((pySplit ['-'] lastTok).headD []) with
    | none => .error (.valueError "invalid literal for int() with base 10")
    | some n => .ok n

/-- One iteration of the anchor loop in `gather_player_links`
(players.py, lines 48-58): `ok (some href)` appends the href,
`ok none` is a skip (non-bold parent, missing parent or grandparent —
the caught `AttributeError` cases), and `error` is an uncaught
exception from parsing the year text. -/
def processAnchor (start_threshold : Int) (tag : Anchor) :
    Except PyError (Option (List Char)) :=
  match tag.parent with
  | none => .ok none
  | some par =>
    if par.name = ['b'] then
      match par.parent with
      | none => .ok none
      | some gp =>
        match first_start_year gp with
        | .error e => .error e
        | .ok n => if start_threshold ≤ n then .ok (some tag.href) else .ok none
    else .ok none

/-- The anchor loop of `gather_player_links`, accumulating hrefs in
order; an uncaught exception aborts the whole call. -/
def gatherLinksAux (start_threshold : Int) :
    List Anchor → Except PyError (List (List Char))
  | [] => .ok []
  | a :: rest =>
    match processAnchor start_threshold a with
    | .error e => .error e
    | .ok r =>
      match gatherLinksAux start_threshold rest with
      | .error e => .error e
      | .ok links =>
        .ok (match r with
             | some h => h :: links
             | none => links)

/-- Embedding of `gather_player_links` (players.py, lines 25-59).  The
fetched index page is modelled as the document-order list of its anchor
tags; `find_all` keeps the ones whose href matches the player-profile
pattern, and the loop keeps the hrefs of the bold, recent-enough ones. -/
def gather_player_links (letter : Char) (page : List Anchor)
    (start_threshold : Int := 2016) : Except PyError (List (List Char)) :=
  gatherLinksAux start_threshold
    (page.filter (fun a => hrefMatchesPlayerLink letter a.href))

/-- An anchor raises no uncaught exception in the loop: either a shape
that the caught `AttributeError` covers (missing parent or grandparent),
a non-bold parent, or a year text whose first dash-piece of the last
word parses as an integer. -/
def anchorShapeOk (a : Anchor) : Bool :=
  match a.parent with
  | none => true
  | some par =>
    if par.name = ['b'] then
      match par.parent with
      | none => true
      | some gp =>
        match first_start_year gp with
        | .ok _ => true
        | .error _ => false
    else true

/-- A sample index page: three candidate anchors — bold with start year
2018, bold with start year 2010, and non-bold (parent `<p>`) with start
year 2020. -/
def sample_index_page : List Anchor :=
  [⟨"/players/A/aaaa.htm".toList,
    some ⟨['b'], some ⟨"Alpha Aardvark (QB) 2018-2021".toList⟩⟩⟩,
   ⟨"/players/A/bbbb.htm".toList,
    some ⟨['b'], some ⟨"Beta Baker (RB) 2010-2015".toList⟩⟩⟩,
   ⟨"/players/A/cccc.htm".toList,
    some ⟨['p'], some ⟨"Gamma Carter (WR) 2020-2021".toList⟩⟩⟩]

/-- The selection criterion of the claim: the anchor's parent is a
`<b>` tag and the first year of the grandparent's year-range text is at
least the threshold. -/
def anchorBoldRecent (start_threshold : Int) (a : Anchor) : Bool :=
  match a.parent with
  | none => false
  | some par =>
    decide (par.name = ['b']) &&
      (match par.parent with
       | none => false
       | some gp =>
         match first_start_year gp with
         | .ok n => decide (start_threshold ≤ n)
         | .error _ => false)

/-- A `<p>` sibling of a datatip span; only its `contents` list is
read. -/
structure PTag where
  contents : List String
deriving DecidableEq, Repr

/-- A `<span>` inside the stats pullout: its `data-tip` attribute and
its following `<p>` siblings in document order. -/
structure SpanTag where
  dataTip : String
  nextSiblingPs : List PTag
deriving DecidableEq, Repr

/-- The `div.stats_pullout` element: its datatip spans in document
order. -/
structure StatsPulloutDiv where
  spans : List SpanTag
deriving DecidableEq, Repr

/-- Embedding of `get_career_stat_from_datatip` (players.py,
lines 91-112).  The element tag is `none` when `soup.find` for the
stats pullout returned `None` (its `.find` then raises the caught
`AttributeError`).  A missing span raises the caught `AttributeError`
from `.find_next_siblings`; an empty sibling list or empty `contents`
raises the caught `IndexError`.  All caught cases return `none`
(Python `None`). -/
def get_career_stat_from_datatip (element_tag : Option StatsPulloutDiv)
    (datatip : String) : Option String :=
  match element_tag with
  | none => none
  | some div =>
    match div.spans.find? (fun s => s.dataTip == datatip) with
    | none => none
    | some span =>
      match span.nextSiblingPs.getLast? with
      | none => none
      | some p =>
        match p.contents.head? with
        | none => none
        | some stat_str => some stat_str

/-- Datatip for games played (players.py, line 152). -/
def gp_datatip : String := "Games played"

/-- Datatip for Approximate Value (players.py, line 153). -/
def av_datatip : String :=
  "Approximate Value is our attempt to attach a single number to every player-season since 1960.<br>See the glossary for more information."

/-- Datatip for the QB team record (players.py, line 154). -/
def qbrec_datatip : String :=
  "Team record in games started by this QB (regular season)"

/-- Datatip for completion percentage (players.py, line 155). -/
def cmp_pct_datatip : String :=
  "Percentage of Passes Completed<br>Minimum 14 attempts per scheduled game to qualify as leader.<br />Minimum 1500 pass attempts to qualify as career leader."

/-- Datatip for passing yards (players.py, lines 156-158). -/
def yds_pass_datatip : String :=
  "Yards Gained by Passing<br>For teams, sack yardage is deducted from this total"

/-- Datatip for yards per pass attempt (players.py, line 159). -/
def ya_pass_datatip : String :=
  "Yards gained per pass attempt <br>Minimum 14 attempts per scheduled game to qualify as leader.<br>Minimum 1500 pass attempts to qualify as career leader."

/-- Datatip for passing touchdowns (players.py, line 160). -/
def passing_td_datatip : String := "Passing Touchdowns"

/-- Datatip for interceptions thrown (players.py, line 161). -/
def int_thrown_datatip : String := "Interceptions thrown"

/-- Datatip for sacks (players.py, line 162). -/
def sacks_datatip : String :=
  "Sacks (official since 1982,<br />based on play-by-play, game film<br />and other research since 1960)"

/-- Datatip for solo tackles (players.py, line 163). -/
def solo_datatip : String :=
  "Tackles<br>Before 1994:  unofficial and inconsistently recorded from team to team.  For amusement only.<br>1994-now:  unofficial but consistently recorded.<br>"

/-- Datatip for forced fumbles (players.py, lines 164-166). -/
def ff_datatip : String :=
  "Number of times forced a fumble by the opposition recovered by either team"

/-- Datatip for fantasy points (players.py, lines 167-174). -/
def fantpt_datatip : String :=
  "<b>Fantasy points:</b><br />\n\t\t\t\t\t\t\t\t1 point per 25 yards passing<br />\n\t\t\t\t\t\t\t\t4 points per passing touchdown<br />\n\t\t\t\t\t\t\t\t-2 points per interception thrown<br />\n\t\t\t\t\t\t\t\t1 point per 10 yards rushing/receiving<br />\n\t\t\t\t\t\t\t\t6 points per TD<br />\n\t\t\t\t\t\t\t\t2 points per two-point conversion<br />\n\t\t\t\t\t\t\t\t-2 points per fumble lost (est. prior to 1994)"

/-- Datatip for receptions (players.py, line 176). -/
def rec_datatip : String := "Receptions"

/-- Datatip for receiving yards (players.py, line 177). -/
def yds_receive_datatip : String := "Receiving Yards"

/-- Datatip for receiving yards per reception (players.py, line 178). -/
def yr_datatip : String :=
  "Receiving Yards per Reception<br>Minimum 1.875 catches per game scheduled to qualify as leader.<br />Minimum 200 receptions to qualify as career leader."

/-- Datatip for receiving touchdowns (players.py, line 179). -/
def receiving_td_datatip : String := "Receiving Touchdowns"

/-- Datatip for rushing attempts (players.py, line 182). -/
def rush_datatip : String := "Rushing Attempts (sacks not included in NFL)"

/-- Datatip for rushing yards (players.py, line 183). -/
def yds_rush_datatip : String :=
  "Rushing Yards Gained (sack yardage is not included by NFL)"

/-- Datatip for rushing yards per attempt (players.py, line 184). -/
def ya_rush_datatip : String :=
  "Rushing Yards per Attempt<br>Minimum 6.25 rushes per game scheduled to qualify as leader.<br />Minimum 750 rushes to qualify as career leader."

/-- Datatip for rushing touchdowns (players.py, line 185). -/
def rushing_td_datatip : String := "Rushing Touchdowns"

/-- The `career_stats` sub-mapping of a player record (players.py,
lines 189-232): each field is the extracted stat string or `none`
(Python `None`) when not found. -/
structure CareerStats where
  games_played : Option String
  approx_val : Option String
  qbrec : Option String
  cmp_pct : Option String
  yds_pass : Option String
  ya_pass : Option String
  passing_td : Option String
  int_thrown : Option String
  sacks : Option String
  solo : Option String
  ff : Option String
  rec_ : Option String
  yds_receive : Option String
  yr : Option String
  receiving_td : Option String
  rush : Option String
  yds_rush : Option String
  ya_rush : Option String
  rushing_td : Option String
  fantpt : Option String
deriving DecidableEq, Repr

/-- Assembly of the `career_stats` dictionary (players.py,
lines 189-232): one `get_career_stat_from_datatip` call per field. -/
def build_career_stats (d : Option StatsPulloutDiv) : CareerStats :=
  { games_played := get_career_stat_from_datatip d gp_datatip
    approx_val := get_career_stat_from_datatip d av_datatip
    qbrec := get_career_stat_from_datatip d qbrec_datatip
    cmp_pct := get_career_stat_from_datatip d cmp_pct_datatip
    yds_pass := get_career_stat_from_datatip d yds_pass_datatip
    ya_pass := get_career_stat_from_datatip d ya_pass_datatip
    passing_td := get_career_stat_from_datatip d passing_td_datatip
    int_thrown := get_career_stat_from_datatip d int_thrown_datatip
    sacks := get_career_stat_from_datatip d sacks_datatip
    solo := get_career_stat_from_datatip d solo_datatip
    ff := get_career_stat_from_datatip d ff_datatip
    rec_ := get_career_stat_from_datatip d rec_datatip
    yds_receive := get_career_stat_from_datatip d yds_receive_datatip
    yr := get_career_stat_from_datatip d yr_datatip
    receiving_td := get_career_stat_from_datatip d receiving_td_datatip
    rush := get_career_stat_from_datatip d rush_datatip
    yds_rush := get_career_stat_from_datatip d yds_rush_datatip
    ya_rush := get_career_stat_from_datatip d ya_rush_datatip
    rushing_td := get_career_stat_from_datatip d rushing_td_datatip
    fantpt := get_career_stat_from_datatip d fantpt_datatip }

/-- A stat marker or its expected sibling structure is missing: the
stats div itself is absent, no span carries the datatip, the span has no
following `<p>` sibling, or the last sibling has empty contents — the
cases in which `get_career_stat_from_datatip` catches `AttributeError`
or `IndexError`. -/
def stat_marker_missing (d : Option StatsPulloutDiv) (tip : String) : Bool :=
  match d with
  | none => true
  | some div =>
    match div.spans.find? (fun s => s.dataTip == tip) with
    | none => true
    | some span =>
      match span.nextSiblingPs.getLast? with
      | none => true
      | some p => p.contents.isEmpty

/-- The `div#info.players` element of a player page (players.py,
lines 128-149), reduced to the access chains `gather_player_info`
performs.  Each `Option (List _)` is `none` when the chain's `find`
returned `None` (raising `AttributeError` on the next access) and
`some []` when the final `contents` list is empty (raising
`IndexError`).  `birthSpanDataAttr` is `none` when the birthDate span is
missing (`TypeError` from subscripting `None`) and `some none` when the
span lacks the `data-birth` attribute (`KeyError`). -/
structure InfoDiv where
  nameSpanContents : Option (List String)
  affiliationContents : Option (List String)
  positionNextSibling : Option (List Char)
  heightContents : Option (List (List Char))
  weightContents : Option (List String)
  birthSpanDataAttr : Option (Option String)
  awardTexts : List String
deriving DecidableEq, Repr

/-- A fetched player profile page, reduced to the two elements
`gather_player_info` looks up: `div#info.players` and
`div.stats_pullout`; each is `none` when absent. -/
structure PlayerSoup where
  info : Option InfoDiv
  stats_pullout : Option StatsPulloutDiv
deriving DecidableEq, Repr

/-- Access `chain.contents[0]`: `AttributeError` when the chain's find
returned `None`, `IndexError` when `contents` is empty. -/
def findContents0 {α : Type} : Option (List α) → Except PyError α
  | none => .error (.attributeError "'NoneType' object has no attribute 'contents'")
  | some [] => .error (.indexError "list index out of range")
  | some (x :: _) => .ok x

/-- Embedding of
`re.match(r"[A-Z]", player_info_tag.find("strong", text="Position").next_sibling.split(": ")[1])[0]`
(players.py, lines 135-138) applied to the next-sibling text: piece 1 of
the split on `": "` must exist (`IndexError` otherwise) and start with
an uppercase letter (else `re.match` returns `None` and subscripting it
raises `TypeError`). -/
def position_from_sibling (sib : List Char) : Except PyError Char :=
  match (pySplit [':', ' '] sib)[1]? with
  | none => .error (.indexError "list index out of range")
  | some part =>
    match part with
    | [] => .error (.typeError "'NoneType' object is not subscriptable")
    | c :: _ =>
      if 'A' ≤ c ∧ c ≤ 'Z' then .ok c
      else .error (.typeError "'NoneType' object is not subscriptable")

/-- The position extraction of `gather_player_info` (players.py,
lines 135-138). -/
def bio_position (player_info_tag : InfoDiv) : Except PyError Char :=
  match player_info_tag.positionNextSibling with
  | none => .error (.attributeError "'NoneType' object has no attribute 'next_sibling'")
  | some sib => position_from_sibling sib

/-- The height extraction of `gather_player_info` (players.py,
lines 139-141): `ft_in_to_cm` applied to `contents[0]` of the height
span. -/
def bio_height (player_info_tag : InfoDiv) : Except PyError Int :=
  match player_info_tag.heightContents with
  | none => .error (.attributeError "'NoneType' object has no attribute 'contents'")
  | some [] => .error (.indexError "list index out of range")
  | some (h :: _) => ft_in_to_cm h

/-- The birth-date extraction of `gather_player_info` (players.py,
lines 143-145): the `data-birth` attribute of the birthDate span. -/
def bio_birth (player_info_tag : InfoDiv) : Except PyError String :=
  match player_info_tag.birthSpanDataAttr with
  | none => .error (.typeError "'NoneType' object is not subscriptable")
  | some none => .error (.keyError "data-birth")
  | some (some b) => .ok b

/-- One player record as assembled by `gather_player_info`
(players.py, lines 115-234). -/
structure PlayerInfo where
  name : String
  team : String
  position : Char
  height : Int
  weight : String
  birth_date : String
  awards : List String
  career_stats : CareerStats
deriving DecidableEq, Repr

/-- Embedding of `gather_player_info` (players.py, lines 115-234):
extract the biographical fields in source order (any failure
propagates — nothing in this function catches exceptions; a missing
`div#info.players` raises `AttributeError` at the first `find` on
`None`) and assemble the career-stats mapping, whose per-field
extraction never fails. -/
def gather_player_info (player_soup : PlayerSoup) : Except PyError PlayerInfo :=
  match player_soup.info with
  | none => .error (.attributeError "'NoneType' object has no attribute 'find'")
  | some player_info_tag =>
    match findContents0 player_info_tag.nameSpanContents with
    | .error e => .error e
    | .ok name =>
      match findContents0 player_info_tag.affiliationContents with
      | .error e => .error e
      | .ok team =>
        match bio_position player_info_tag with
        | .error e => .error e
        | .ok position =>
          match bio_height player_info_tag with
          | .error e => .error e
          | .ok height =>
            match findContents0 player_info_tag.weightContents with
            | .error e => .error e
            | .ok weight =>
              match bio_birth player_info_tag with
              | .error e => .error e
              | .ok birth_date =>
                .ok ⟨name, team, position, height, weight, birth_date,
                     player_info_tag.awardTexts,
                     build_career_stats player_soup.stats_pullout⟩

/-- Outcome of `requests.get` on a player profile URL: the parsed page,
or a `ConnectionResetError`. -/
inductive FetchOutcome where
  | page (soup : PlayerSoup)
  | connectionReset
deriving Repr

/-- The network environment of the player collection driver: the index
page served for each letter and the fetch outcome for each profile
href. -/
structure PlayerWorld where
  indexPage : Char → List Anchor
  profile : List Char → FetchOutcome

/-- Observable actions of the player collection driver: the per-letter
index request, the per-link profile request, and `time.sleep`. -/
inductive Event where
  | fetchIndex (letter : Char)
  | fetchProfile (href : List Char)
  | sleep (seconds : Nat)
deriving DecidableEq, Repr

/-- Canonical event trace of the inner link loop: one profile request
per link occurrence, in order, and a 5-second sleep immediately after a
connection reset; no link is requested twice. -/
def linkEvents (w : PlayerWorld) (links : List (List Char)) : List Event :=
  links.flatMap (fun link =>
    match w.profile link with
    | .connectionReset => [.fetchProfile link, .sleep 5]
    | .page _ => [.fetchProfile link])

/-- Canonical collected profiles of the inner link loop: the
successfully parsed pages, in order; reset or unparsable pages
contribute nothing. -/
def collectedInfos (w : PlayerWorld) (links : List (List Char)) :
    List PlayerInfo :=
  links.filterMap (fun link =>
    match w.profile link with
    | .connectionReset => none
    | .page soup => (gather_player_info soup).toOption)

/-- A link's fetch-and-parse raises nothing the loop leaves uncaught:
either a connection reset (caught, sleep then skip), a successful
parse, or an `AttributeError` (caught, skip). -/
def profileParseCaught (w : PlayerWorld) (link : List Char) : Bool :=
  match w.profile link with
  | .connectionReset => true
  | .page soup =>
    match gather_player_info soup with
    | .ok _ => true
    | .error (.attributeError _) => true
    | .error _ => false

/-- Inner loop of `scrape_nfl_player_data` (players.py, lines 243-252):
fetch and parse each discovered link; skip on `AttributeError`; sleep 5
seconds and skip on `ConnectionResetError`; let anything else
propagate.  Returns the event trace and the accumulated profiles. -/
def processLinks (w : PlayerWorld) :
    List (List Char) → Except PyError (List Event × List PlayerInfo)
  | [] => .ok ([], [])
  | player_link :: rest =>
    match w.profile player_link with
    | .connectionReset =>
      match processLinks w rest with
      | .error e => .error e
      | .ok (evs, infos) =>
        .ok (.fetchProfile player_link :: .sleep 5 :: evs, infos)
    | .page soup =>
      match gather_player_info soup with
      | .ok info =>
        match processLinks w rest with
        | .error e => .error e
        | .ok (evs, infos) =>
          .ok (.fetchProfile player_link :: evs, info :: infos)
      | .error (.attributeError _) =>
        match processLinks w rest with
        | .error e => .error e
        | .ok (evs, infos) => .ok (.fetchProfile player_link :: evs, infos)
      | .error e => .error e

/-- Outer loop of `scrape_nfl_player_data` (players.py, lines 239-252):
for each letter, fetch the index page, discover links, then run the
inner loop; errors from link discovery or uncaught parse errors
propagate. -/
def processLetters (w : PlayerWorld) (start_year : Int) :
    List Char → Except PyError (List Event × List PlayerInfo)
  | [] => .ok ([], [])
  | letter :: rest =>
    match gather_player_links letter (w.indexPage letter) start_year with
    | .error e => .error e
    | .ok links =>
      match processLinks w links with
      | .error e => .error e
      | .ok (evs, infos) =>
        match processLetters w start_year rest with
        | .error e => .error e
        | .ok (evs2, infos2) =>
          .ok (Event.fetchIndex letter :: (evs ++ evs2), infos ++ infos2)

/-- The identity key of `drop_duplicates(subset=["name", "team",
"position", "height", "weight", "birth_date"])`. -/
def dedupKey (p : PlayerInfo) :
    String × String × Char × Int × String × String :=
  (p.name, p.team, p.position, p.height, p.weight, p.birth_date)

/-- Key-tracking worker for `drop_duplicates`: pandas keeps the first
occurrence of each key. -/
def dropDupAux (seen : List (String × String × Char × Int × String × String)) :
    List PlayerInfo → List PlayerInfo
  | [] => []
  | p :: rest =>
    if dedupKey p ∈ seen then dropDupAux seen rest
    else p :: dropDupAux (dedupKey p :: seen) rest

/-- Embedding of `drop_duplicates` on the six-column identity key
(players.py, lines 255-258). -/
def drop_duplicates (l : List PlayerInfo) : List PlayerInfo :=
  dropDupAux [] l

/-- The DataFrame built and deduplicated by `scrape_nfl_player_data`
(players.py, lines 254-258): `pd.json_normalize` of the accumulated
records followed by `drop_duplicates` on the identity key. -/
def scraped_players_data_df (w : PlayerWorld) (start_year : Int) :
    Except PyError (List PlayerInfo) :=
  match processLetters w start_year ALPHABETS_LIST with
  | .error e => .error e
  | .ok r => .ok (drop_duplicates r.2)

/-- Embedding of `scrape_nfl_player_data` (players.py, lines 237-260).
The source function's final line is the bare expression
`scraped_players_data_df`, not a `return` statement, so after building
and deduplicating the DataFrame the Python function falls off the end
and returns `None`; the `Option` result models this, with `none`
standing for Python `None`. -/
def scrape_nfl_player_data (w : PlayerWorld) (start_year : Int := 2016) :
    Except PyError (Option (List PlayerInfo)) :=
  match scraped_players_data_df w start_year with
  | .error e => .error e
  | .ok _ => .ok none

/-- A complete `div#info.players` for a sample quarterback. -/
def sample_qb_info : InfoDiv :=
  { nameSpanContents := some ["Sample Quarterback"]
    affiliationContents := some ["Team X"]
    positionNextSibling := some (": QB".toList)
    heightContents := some ["6-2".toList]
    weightContents := some ["220lb"]
    birthSpanDataAttr := some (some "1990-01-01")
    awardTexts := [] }

/-- A sample quarterback page: full biographical info, a stats pullout
with games played, completion percentage and passing touchdowns, and no
"Sacks" tooltip marker. -/
def sample_qb_soup : PlayerSoup :=
  ⟨some sample_qb_info,
   some ⟨[⟨gp_datatip, [⟨["16"]⟩]⟩,
          ⟨cmp_pct_datatip, [⟨["66.3"]⟩]⟩,
          ⟨passing_td_datatip, [⟨["40"]⟩]⟩]⟩⟩

/-- A world in which letter B's index page lists one bold, recent
player whose profile request always hits a connection reset. -/
def reset_world : PlayerWorld :=
  { indexPage := fun c =>
      if c = 'B' then
        [⟨"/players/B/rrrr.htm".toList,
          some ⟨['b'], some ⟨"Reset Rrrr (QB) 2019-2021".toList⟩⟩⟩]
      else []
    profile := fun _ => .connectionReset }

/-- The links `reset_world` yields per letter. -/
def reset_links (c : Char) : List (List Char) :=
  if c = 'B' then ["/players/B/rrrr.htm".toList] else []

/-- Stats pullout of the first duplicate profile. -/
def dup_stats1 : Option StatsPulloutDiv :=
  some ⟨[⟨gp_datatip, [⟨["16"]⟩]⟩]⟩

/-- Stats pullout of the second duplicate profile: same identity key,
different career stats. -/
def dup_stats2 : Option StatsPulloutDiv :=
  some ⟨[⟨gp_datatip, [⟨["32"]⟩]⟩]⟩

/-- A world in which letter A's index page lists two links whose
profiles agree on all six identity-key fields and differ only in the
career-stats sub-mapping. -/
def dup_world : PlayerWorld :=
  { indexPage := fun c =>
      if c = 'A' then
        [⟨"/players/A/dup1.htm".toList,
          some ⟨['b'], some ⟨"John Doe (QB) 2018-2021".toList⟩⟩⟩,
         ⟨"/players/A/dup2.htm".toList,
          some ⟨['b'], some ⟨"John Doe (QB) 2018-2021".toList⟩⟩⟩]
      else []
    profile := fun href =>
      if href = "/players/A/dup1.htm".toList then
        .page ⟨some sample_qb_info, dup_stats1⟩
      else
        .page ⟨some sample_qb_info, dup_stats2⟩ }

end Scraper

namespace Scraper

/-- C2 counterexample: on the string `"6-2"` with the default delimiter,
`ft_in_to_cm` returns `187` (the truncation of `6 * 30.48 + 2 * 2.48 =
187.84`), not the `208` the specification states. -/
theorem ft_in_to_cm_six_two_ne_208 :
    ft_in_to_cm ("6-2".toList) = .ok 187 ∧ (187 : Int) ≠ 208 := by
  constructor
  · decide
  · decide

/-- C2 (amended): for every input string that splits on the delimiter
into pieces whose first two parse as integers `f` and `i`,
`ft_in_to_cm` returns the truncation toward zero of
`f * 30.48 + i * 2.48` (which for `"6-2"` is 187, not 208). -/
theorem ft_in_to_cm_formula (s d a b : List Char) (f i : Int)
    (h0 : (pySplit d s)[0]? = some a) (h1 : (pySplit d s)[1]? = some b)
    (hf : pyInt? a = some f) (hi : pyInt? b = some i) :
    ft_in_to_cm s d = .ok (trunc_cm_formula f i) := by
  simp only [ft_in_to_cm, h0, h1, hf, hi]

/-- Witness for `ft_in_to_cm_formula` at the input `"6-2"`. -/
theorem ft_in_to_cm_formula_witness :
    (pySplit ['-'] ("6-2".toList))[0]? = some ['6'] ∧
    (pySplit ['-'] ("6-2".toList))[1]? = some ['2'] ∧
    pyInt? ['6'] = some 6 ∧ pyInt? ['2'] = some 2 ∧
    ft_in_to_cm ("6-2".toList) ['-'] = .ok (trunc_cm_formula 6 2) :=
  ⟨by decide, by decide, by decide, by decide,
    ft_in_to_cm_formula ("6-2".toList) ['-'] ['6'] ['2'] 6 2
      (by decide) (by decide) (by decide) (by decide)⟩

/-- C3 counterexample: at year 1900 (outside the bound) the failure of
`get_injury_report_df` is an `AssertionError` raised by the `assert`
statement; the repository defines no exception class named
`InvalidParameterError`, so the failure class differs from the one the
claim names. -/
theorem injury_precondition_error_class :
    errClass? (get_injury_report_df (fun _ _ => ⟨[]⟩) 2026 1900 "REG1")
        = some "AssertionError" ∧
      some "AssertionError" ≠ some "InvalidParameterError" := by
  constructor
  · decide
  · decide

/-- C3 (amended): for every year outside `[1965, currentYear]` or period
outside the enumerated list, `get_injury_report_df` fails with an
`AssertionError` (the class actually raised by the `assert` precondition
checks), and the result is identical for every page oracle — the call is
rejected before any network access. -/
theorem injury_report_rejects_invalid_before_network
    (f g : Int → String → InjuryPage) (cy y : Int) (p : String)
    (h : ¬(1965 ≤ y ∧ y ≤ cy) ∨ p ∉ NFL_SEASON_PERIOD_LIST) :
    (∃ msg, get_injury_report_df f cy y p = .error (.assertionError msg)) ∧
      get_injury_report_df f cy y p = get_injury_report_df g cy y p := by
  unfold get_injury_report_df
  by_cases hy : ¬(1965 ≤ y ∧ y ≤ cy)
  · rw [if_pos hy, if_pos hy]
    exact ⟨⟨YEAR_ASSERT_MSG, rfl⟩, rfl⟩
  · have hp : p ∉ NFL_SEASON_PERIOD_LIST := h.resolve_left (fun hh => hy hh)
    rw [if_neg hy, if_neg hy, if_pos hp, if_pos hp]
    exact ⟨⟨PERIOD_ASSERT_MSG, rfl⟩, rfl⟩

/-- Witness for `injury_report_rejects_invalid_before_network` at year
1900 with two distinct page oracles. -/
theorem injury_report_rejects_invalid_before_network_witness :
    (¬((1965 : Int) ≤ 1900 ∧ (1900 : Int) ≤ 2026) ∨
        "REG1" ∉ NFL_SEASON_PERIOD_LIST) ∧
      ((∃ msg, get_injury_report_df (fun _ _ => ⟨[]⟩) 2026 1900 "REG1"
            = .error (.assertionError msg)) ∧
        get_injury_report_df (fun _ _ => ⟨[]⟩) 2026 1900 "REG1"
          = get_injury_report_df (fun _ _ => ⟨[⟨true, [⟨"row", some "Knee"⟩]⟩]⟩)
              2026 1900 "REG1") :=
  ⟨Or.inl (by decide),
    injury_report_rejects_invalid_before_network
      (fun _ _ => ⟨[]⟩) (fun _ _ => ⟨[⟨true, [⟨"row", some "Knee"⟩]⟩]⟩)
      2026 1900 "REG1" (Or.inl (by decide))⟩

/-- C6: `get_injury_report_df` fails with `InjuryDataNotAvailableError`
exactly when the year and period pass the precondition checks and the
fetched page has no table with the expected injury-table class. -/
theorem injury_report_not_available_iff
    (f : Int → String → InjuryPage) (cy y : Int) (p : String) :
    get_injury_report_df f cy y p
        = .error (.injuryDataNotAvailableError INJURY_NOT_AVAILABLE_MSG)
      ↔ (1965 ≤ y ∧ y ≤ cy) ∧ p ∈ NFL_SEASON_PERIOD_LIST ∧
          (f y p).tables.filter (·.hasInjuryReportClass) = [] := by
  unfold get_injury_report_df
  by_cases hy : ¬(1965 ≤ y ∧ y ≤ cy)
  · rw [if_pos hy]
    constructor
    · intro hcontra
      simp [PyError.assertionError.injEq] at hcontra
    · intro ⟨h1, _⟩
      exact absurd h1 hy
  · rw [if_neg hy]
    push_neg at hy
    by_cases hp : p ∉ NFL_SEASON_PERIOD_LIST
    · rw [if_pos hp]
      constructor
      · intro hcontra
        simp [PyError.assertionError.injEq] at hcontra
      · intro ⟨_, h2, _⟩
        exact absurd h2 hp
    · rw [if_neg hp]
      push_neg at hp
      by_cases ht : ((f y p).tables.filter (·.hasInjuryReportClass)).length = 0
      · rw [if_pos ht]
        simp [hy.1, hy.2, hp, List.length_eq_zero.mp ht]
      · rw [if_neg ht]
        constructor
        · intro hcontra
          simp at hcontra
        · intro ⟨_, _, h3⟩
          exact absurd (by simp [h3]) ht

/-- Zipping index values onto a list of equal length and projecting the
second components gives back the list. -/
theorem map_snd_zip_eq {α β : Type} :
    ∀ (r : List α) (l : List β), r.length = l.length →
      (r.zip l).map (fun e => e.2) = l
  | [], [], _ => rfl
  | _ :: r, _ :: l, h => by
    simp only [List.zip_cons_cons, List.map_cons]
    rw [map_snd_zip_eq r l (by simpa using h)]
  | [], _ :: _, h => by simp at h
  | _ :: _, [], h => by simp at h

/-- Tagging the rows of index-row pairs, dropping the pairs without an
injury value, and projecting to rows is the same as tagging and
filtering the rows themselves. -/
theorem pairs_pipeline (pairs : List (Nat × RawInjuryRow)) (y : Int) (p : String) :
    ((pairs.map (fun e => (e.1, tagRow y p e.2))).filter
        (fun e => e.2.injuries.isSome)).map (fun e => e.2)
      = ((pairs.map (fun e => e.2)).map (tagRow y p)).filter
          (fun r => r.injuries.isSome) := by
  induction pairs with
  | nil => rfl
  | cons e rest ih =>
    by_cases h : (tagRow y p e.2).injuries.isSome
    · simp [List.filter_cons, h, ih]
    · simp [List.filter_cons, h, ih]

/-- Concatenating the per-table index-row pairs and projecting to rows
concatenates the tables' row lists. -/
theorem map_snd_flatten_tables (ts : List HtmlTable) :
    ((ts.map tableEntries).flatten).map (fun e => e.2)
      = (ts.map (·.rows)).flatten := by
  induction ts with
  | nil => rfl
  | cons t rest ih =>
    simp only [List.map_cons, List.flatten_cons, List.map_append, ih,
      List.append_cancel_right_eq]
    exact map_snd_zip_eq _ _ (by simp [tableEntries])

/-- C4: for every valid year and period, when the fetched page has at
least one matching injury table, `get_injury_report_df` returns exactly
the concatenation of the matching tables' rows annotated with the year
and period, with the rows lacking an "Injuries" value dropped, indexed
contiguously from zero. -/
theorem injury_report_success (f : Int → String → InjuryPage)
    (cy y : Int) (p : String)
    (h1 : 1965 ≤ y) (h2 : y ≤ cy) (h3 : p ∈ NFL_SEASON_PERIOD_LIST)
    (h4 : (f y p).tables.filter (·.hasInjuryReportClass) ≠ []) :
    get_injury_report_df f cy y p =
      .ok ⟨(List.range (expected_injury_rows (f y p) y p).length).zip
             (expected_injury_rows (f y p) y p)⟩ := by
  have hys : ¬¬(1965 ≤ y ∧ y ≤ cy) := not_not_intro ⟨h1, h2⟩
  have hps : ¬(p ∉ NFL_SEASON_PERIOD_LIST) := not_not_intro h3
  have hlen : ¬(((f y p).tables.filter (·.hasInjuryReportClass)).length = 0) := by
    simpa [List.length_eq_zero] using h4
  simp only [get_injury_report_df]
  rw [if_neg hys, if_neg hps, if_neg hlen]
  have key :=
    pairs_pipeline
      ((((f y p).tables.filter (·.hasInjuryReportClass)).map tableEntries).flatten) y p
  rw [map_snd_flatten_tables] at key
  unfold expected_injury_rows
  rw [← key, List.length_map]

/-- Witness for `injury_report_success`: a page with two matching tables
and five rows, two of which lack an injury value, yields exactly three
rows, tagged with the year and period and indexed 0, 1, 2. -/
theorem injury_report_success_witness :
    (1965 : Int) ≤ 2020 ∧ (2020 : Int) ≤ 2026 ∧
      "REG1" ∈ NFL_SEASON_PERIOD_LIST ∧
      (InjuryPage.mk
          [⟨true, [⟨"r1", some "Knee"⟩, ⟨"r2", none⟩, ⟨"r3", some "Ankle"⟩]⟩,
           ⟨true, [⟨"r4", none⟩, ⟨"r5", some "Hamstring"⟩]⟩]).tables.filter
          (·.hasInjuryReportClass) ≠ [] ∧
      get_injury_report_df
          (fun _ _ => InjuryPage.mk
            [⟨true, [⟨"r1", some "Knee"⟩, ⟨"r2", none⟩, ⟨"r3", some "Ankle"⟩]⟩,
             ⟨true, [⟨"r4", none⟩, ⟨"r5", some "Hamstring"⟩]⟩])
          2026 2020 "REG1"
        = .ok ⟨(List.range (expected_injury_rows
              (InjuryPage.mk
                [⟨true, [⟨"r1", some "Knee"⟩, ⟨"r2", none⟩, ⟨"r3", some "Ankle"⟩]⟩,
                 ⟨true, [⟨"r4", none⟩, ⟨"r5", some "Hamstring"⟩]⟩]) 2020 "REG1").length).zip
            (expected_injury_rows
              (InjuryPage.mk
                [⟨true, [⟨"r1", some "Knee"⟩, ⟨"r2", none⟩, ⟨"r3", some "Ankle"⟩]⟩,
                 ⟨true, [⟨"r4", none⟩, ⟨"r5", some "Hamstring"⟩]⟩]) 2020 "REG1")⟩ ∧
      get_injury_report_df
          (fun _ _ => InjuryPage.mk
            [⟨true, [⟨"r1", some "Knee"⟩, ⟨"r2", none⟩, ⟨"r3", some "Ankle"⟩]⟩,
             ⟨true, [⟨"r4", none⟩, ⟨"r5", some "Hamstring"⟩]⟩])
          2026 2020 "REG1"
        = .ok ⟨[(0, ⟨"r1", some "Knee", 2020, "REG1"⟩),
                (1, ⟨"r3", some "Ankle", 2020, "REG1"⟩),
                (2, ⟨"r5", some "Hamstring", 2020, "REG1"⟩)]⟩ :=
  ⟨by decide, by decide, by decide, by decide,
    injury_report_success
      (fun _ _ => InjuryPage.mk
        [⟨true, [⟨"r1", some "Knee"⟩, ⟨"r2", none⟩, ⟨"r3", some "Ankle"⟩]⟩,
         ⟨true, [⟨"r4", none⟩, ⟨"r5", some "Hamstring"⟩]⟩])
      2026 2020 "REG1" (by decide) (by decide) (by decide) (by decide),
    by decide⟩

/-- Inner batch loop: when every period of a year either succeeds or is
merely unavailable, the collected list is exactly the successful results
in period order. -/
theorem collectPeriods_eq (f : Int → String → InjuryPage) (cy y : Int)
    (periods : List String)
    (h : ∀ p ∈ periods,
        (∃ df, get_injury_report_df f cy y p = .ok df) ∨
          get_injury_report_df f cy y p
            = .error (.injuryDataNotAvailableError INJURY_NOT_AVAILABLE_MSG)) :
    collectPeriods f cy y periods
      = .ok (periods.filterMap
          (fun p => (get_injury_report_df f cy y p).toOption)) := by
  induction periods with
  | nil => rfl
  | cons p rest ih =>
    have hrest := ih (fun q hq => h q (List.mem_cons_of_mem p hq))
    rcases h p (List.mem_cons_self p rest) with ⟨df, hdf⟩ | herr
    · simp [collectPeriods, hdf, hrest, List.filterMap_cons, Except.toOption]
    · simp [collectPeriods, herr, hrest, List.filterMap_cons, Except.toOption]

/-- Outer batch loop: under the same condition for every pair, the
collected list is the concatenation over years of the per-year
successes, i.e. the Cartesian-product iteration in order. -/
theorem collectYears_eq (f : Int → String → InjuryPage) (cy : Int)
    (periods : List String) (years : List Int)
    (h : ∀ y ∈ years, ∀ p ∈ periods,
        (∃ df, get_injury_report_df f cy y p = .ok df) ∨
          get_injury_report_df f cy y p
            = .error (.injuryDataNotAvailableError INJURY_NOT_AVAILABLE_MSG)) :
    collectYears f cy periods years = .ok (successful_dfs f cy years periods) := by
  induction years with
  | nil => rfl
  | cons y rest ih =>
    have hy := collectPeriods_eq f cy y periods (h y (List.mem_cons_self y rest))
    have hrest := ih (fun z hz => h z (List.mem_cons_of_mem y hz))
    simp [collectYears, hy, hrest, successful_dfs, List.flatMap_cons]

/-- C8: `scrape_nfl_injury_data` iterates years × periods, calls
`get_injury_report_df` once per pair, silently skips unavailable pairs,
and returns the concatenation of all successful per-pair results,
provided some pair succeeded (and no pair failed its precondition
checks). -/
theorem scrape_injury_batch (f : Int → String → InjuryPage) (cy : Int)
    (years : List Int) (periods : List String)
    (h : ∀ y ∈ years, ∀ p ∈ periods,
        (∃ df, get_injury_report_df f cy y p = .ok df) ∨
          get_injury_report_df f cy y p
            = .error (.injuryDataNotAvailableError INJURY_NOT_AVAILABLE_MSG))
    (hne : successful_dfs f cy years periods ≠ []) :
    scrape_nfl_injury_data f cy years periods
      = .ok ⟨((successful_dfs f cy years periods).map (·.entries)).flatten⟩ := by
  unfold scrape_nfl_injury_data
  rw [collectYears_eq f cy periods years h]
  match hd : successful_dfs f cy years periods with
  | [] => exact absurd hd hne
  | d :: ds => rfl

/-- Witness for `scrape_injury_batch`: one year and two periods, of
which only the first is available. -/
theorem scrape_injury_batch_witness :
    (∀ y ∈ [(2020 : Int)], ∀ p ∈ ["REG1", "REG2"],
        (∃ df, get_injury_report_df
            (fun _ q => if q = "REG1" then ⟨[⟨true, [⟨"a", some "Knee"⟩]⟩]⟩ else ⟨[]⟩)
            2026 y p = .ok df) ∨
          get_injury_report_df
              (fun _ q => if q = "REG1" then ⟨[⟨true, [⟨"a", some "Knee"⟩]⟩]⟩ else ⟨[]⟩)
              2026 y p
            = .error (.injuryDataNotAvailableError INJURY_NOT_AVAILABLE_MSG)) ∧
      successful_dfs
          (fun _ q => if q = "REG1" then ⟨[⟨true, [⟨"a", some "Knee"⟩]⟩]⟩ else ⟨[]⟩)
          2026 [(2020 : Int)] ["REG1", "REG2"] ≠ [] ∧
      scrape_nfl_injury_data
          (fun _ q => if q = "REG1" then ⟨[⟨true, [⟨"a", some "Knee"⟩]⟩]⟩ else ⟨[]⟩)
          2026 [(2020 : Int)] ["REG1", "REG2"]
        = .ok ⟨((successful_dfs
              (fun _ q => if q = "REG1" then ⟨[⟨true, [⟨"a", some "Knee"⟩]⟩]⟩ else ⟨[]⟩)
              2026 [(2020 : Int)] ["REG1", "REG2"]).map (·.entries)).flatten⟩ := by
  refine ⟨?_, by decide, ?_⟩
  · intro y hy p hp
    have hy2020 : y = 2020 := by simpa using hy
    subst hy2020
    have hp2 : p = "REG1" ∨ p = "REG2" := by simpa using hp
    rcases hp2 with h | h
    · subst h
      exact Or.inl ⟨⟨[(0, ⟨"a", some "Knee", 2020, "REG1"⟩)]⟩, by decide⟩
    · subst h
      exact Or.inr (by decide)
  · refine scrape_injury_batch _ 2026 [(2020 : Int)] ["REG1", "REG2"] ?_ (by decide)
    intro y hy p hp
    have hy2020 : y = 2020 := by simpa using hy
    subst hy2020
    have hp2 : p = "REG1" ∨ p = "REG2" := by simpa using hp
    rcases hp2 with h | h
    · subst h
      exact Or.inl ⟨⟨[(0, ⟨"a", some "Knee", 2020, "REG1"⟩)]⟩, by decide⟩
    · subst h
      exact Or.inr (by decide)

/-- C10: when every (year, period) pair is unavailable, the batch driver
fails with `ValueError` from `pd.concat` on the empty list instead of
returning an empty combined table. -/
theorem scrape_injury_all_unavailable (f : Int → String → InjuryPage)
    (cy : Int) (years : List Int) (periods : List String)
    (h : ∀ y ∈ years, ∀ p ∈ periods,
        get_injury_report_df f cy y p
          = .error (.injuryDataNotAvailableError INJURY_NOT_AVAILABLE_MSG)) :
    scrape_nfl_injury_data f cy years periods
        = .error (.valueError "No objects to concatenate") ∧
      ∀ df, scrape_nfl_injury_data f cy years periods ≠ .ok df := by
  have hempty : successful_dfs f cy years periods = [] := by
    unfold successful_dfs
    rw [List.flatMap_eq_nil_iff]
    intro y hy
    rw [List.filterMap_eq_nil_iff]
    intro p hp
    rw [h y hy p hp]
    rfl
  have hcoll := collectYears_eq f cy periods years
    (fun y hy p hp => Or.inr (h y hy p hp))
  rw [hempty] at hcoll
  constructor
  · unfold scrape_nfl_injury_data
    rw [hcoll]
    rfl
  · intro df hcontra
    rw [(by unfold scrape_nfl_injury_data; rw [hcoll]; rfl :
        scrape_nfl_injury_data f cy years periods
          = .error (.valueError "No objects to concatenate"))] at hcontra
    cases hcontra

/-- Witness for `scrape_injury_all_unavailable`: one valid pair whose
page has no matching table. -/
theorem scrape_injury_all_unavailable_witness :
    (∀ y ∈ [(2020 : Int)], ∀ p ∈ ["REG1"],
        get_injury_report_df (fun _ _ => ⟨[]⟩) 2026 y p
          = .error (.injuryDataNotAvailableError INJURY_NOT_AVAILABLE_MSG)) ∧
      (scrape_nfl_injury_data (fun _ _ => ⟨[]⟩) 2026 [(2020 : Int)] ["REG1"]
          = .error (.valueError "No objects to concatenate") ∧
        ∀ df, scrape_nfl_injury_data (fun _ _ => ⟨[]⟩) 2026 [(2020 : Int)] ["REG1"]
          ≠ .ok df) := by
  have hh : ∀ y ∈ [(2020 : Int)], ∀ p ∈ ["REG1"],
      get_injury_report_df (fun _ _ => ⟨[]⟩) 2026 y p
        = .error (.injuryDataNotAvailableError INJURY_NOT_AVAILABLE_MSG) := by
    intro y hy p hp
    have hy2020 : y = 2020 := by simpa using hy
    have hpreg : p = "REG1" := by simpa using hp
    subst hy2020
    subst hpreg
    decide
  exact ⟨hh, scrape_injury_all_unavailable (fun _ _ => ⟨[]⟩) 2026 _ _ hh⟩

/-- Anchor loop of link discovery: when no candidate anchor has an
uncaught-exception shape, the loop returns exactly the hrefs of the
bold, recent-enough anchors, in order, skipping the rest without
error. -/
theorem gatherLinksAux_eq (thr : Int) (l : List Anchor)
    (h : l.all anchorShapeOk) :
    gatherLinksAux thr l
      = .ok ((l.filter (anchorBoldRecent thr)).map (·.href)) := by
  induction l with
  | nil => rfl
  | cons a rest ih =>
    simp only [List.all_cons, Bool.and_eq_true] at h
    have hrest := ih h.2
    cases ha : a.parent with
    | none =>
      have hpa : processAnchor thr a = .ok none := by
        simp [processAnchor, ha]
      have hbr : anchorBoldRecent thr a = false := by
        simp [anchorBoldRecent, ha]
      simp [gatherLinksAux, hpa, hrest, List.filter_cons, hbr]
    | some par =>
      by_cases hb : par.name = ['b']
      · cases hgp : par.parent with
        | none =>
          have hpa : processAnchor thr a = .ok none := by
            simp [processAnchor, ha, hb, hgp]
          have hbr : anchorBoldRecent thr a = false := by
            simp [anchorBoldRecent, ha, hb, hgp]
          simp [gatherLinksAux, hpa, hrest, List.filter_cons, hbr]
        | some gp =>
          cases hy : first_start_year gp with
          | error e =>
            exfalso
            have hsh := h.1
            simp [anchorShapeOk, ha, hb, hgp, hy] at hsh
          | ok n =>
            by_cases hthr : thr ≤ n
            · have hpa : processAnchor thr a = .ok (some a.href) := by
                simp [processAnchor, ha, hb, hgp, hy, hthr]
              have hbr : anchorBoldRecent thr a = true := by
                simp [anchorBoldRecent, ha, hb, hgp, hy, hthr]
              simp [gatherLinksAux, hpa, hrest, List.filter_cons, hbr]
            · have hpa : processAnchor thr a = .ok none := by
                simp [processAnchor, ha, hb, hgp, hy, hthr]
              have hbr : anchorBoldRecent thr a = false := by
                simp [anchorBoldRecent, ha, hb, hgp, hy, hthr]
              simp [gatherLinksAux, hpa, hrest, List.filter_cons, hbr]
      · have hpa : processAnchor thr a = .ok none := by
          simp [processAnchor, ha, hb]
        have hbr : anchorBoldRecent thr a = false := by
          simp [anchorBoldRecent, ha, hb]
        simp [gatherLinksAux, hpa, hrest, List.filter_cons, hbr]

/-- C5: for every index letter and threshold, on a page none of whose
pattern-matching anchors has an uncaught-exception shape,
`gather_player_links` returns exactly the hrefs of the pattern-matching
anchors that are rendered in bold and whose adjacent year-range text
starts at or after the threshold; anchors with a missing parent or
grandparent, or a non-bold parent, are skipped without error. -/
theorem gather_player_links_selects (letter : Char) (page : List Anchor)
    (thr : Int)
    (h : (page.filter (fun a => hrefMatchesPlayerLink letter a.href)).all
        anchorShapeOk) :
    gather_player_links letter page thr
      = .ok (((page.filter (fun a => hrefMatchesPlayerLink letter a.href)).filter
            (anchorBoldRecent thr)).map (·.href)) :=
  gatherLinksAux_eq thr _ h

/-- Witness for `gather_player_links_selects`: on `sample_index_page`
(bold/2018, bold/2010, non-bold/2020) with threshold 2016 the result is
exactly the first anchor's URL. -/
theorem gather_player_links_selects_witness :
    ((sample_index_page.filter
          (fun a => hrefMatchesPlayerLink 'A' a.href)).all anchorShapeOk) = true ∧
      gather_player_links 'A' sample_index_page 2016
        = .ok (((sample_index_page.filter
              (fun a => hrefMatchesPlayerLink 'A' a.href)).filter
                (anchorBoldRecent 2016)).map (·.href)) ∧
      gather_player_links 'A' sample_index_page 2016
        = .ok ["/players/A/aaaa.htm".toList] :=
  ⟨by decide,
    gather_player_links_selects 'A' sample_index_page 2016 (by decide),
    by decide⟩

/-- C7 counterexample: on the sample quarterback page, which lacks the
"Sacks" tooltip marker, the parsed record's `sacks` field is `none`
(Python `None`), not the string `"not available"` the claim states. -/
theorem sacks_field_none_not_string :
    (gather_player_info sample_qb_soup).map (fun p => p.career_stats.sacks)
        = .ok none ∧
      (Except.ok (none : Option String) : Except PyError (Option String))
        ≠ .ok (some "not available") := by
  constructor
  · decide
  · decide

/-- C7 (amended): for every player page whose biographical chains parse
and whose "Sacks" tooltip marker (or its expected sibling structure) is
missing, the parse succeeds, the record's `sacks` field is `None`
(Python `None`, not the string "not available"), every other field is
its own extraction result, and in general any stat whose marker or
sibling structure is missing comes out `None`. -/
theorem gather_player_info_missing_marker
    (soup : PlayerSoup) (player_info_tag : InfoDiv)
    (n t wt bd : String) (pos : Char) (ht : Int)
    (hinfo : soup.info = some player_info_tag)
    (hname : findContents0 player_info_tag.nameSpanContents = .ok n)
    (hteam : findContents0 player_info_tag.affiliationContents = .ok t)
    (hpos : bio_position player_info_tag = .ok pos)
    (hht : bio_height player_info_tag = .ok ht)
    (hwt : findContents0 player_info_tag.weightContents = .ok wt)
    (hbd : bio_birth player_info_tag = .ok bd)
    (hsacks : stat_marker_missing soup.stats_pullout sacks_datatip = true) :
    gather_player_info soup
        = .ok ⟨n, t, pos, ht, wt, bd, player_info_tag.awardTexts,
               build_career_stats soup.stats_pullout⟩ ∧
      (build_career_stats soup.stats_pullout).sacks = none ∧
      ∀ (d : Option StatsPulloutDiv) (tip : String),
        stat_marker_missing d tip = true →
          get_career_stat_from_datatip d tip = none := by
  have hgen : ∀ (d : Option StatsPulloutDiv) (tip : String),
      stat_marker_missing d tip = true →
        get_career_stat_from_datatip d tip = none := by
    intro d tip hmiss
    cases d with
    | none => rfl
    | some div =>
      cases hfind : div.spans.find? (fun s => s.dataTip == tip) with
      | none => simp [get_career_stat_from_datatip, hfind]
      | some span =>
        cases hlast : span.nextSiblingPs.getLast? with
        | none => simp [get_career_stat_from_datatip, hfind, hlast]
        | some p =>
          have hc : p.contents = [] := by
            simp only [stat_marker_missing, hfind, hlast,
              List.isEmpty_iff] at hmiss
            exact hmiss
          simp [get_career_stat_from_datatip, hfind, hlast, hc]
  refine ⟨?_, ?_, hgen⟩
  · simp only [gather_player_info, hinfo, hname, hteam, hpos, hht, hwt, hbd]
  · have : (build_career_stats soup.stats_pullout).sacks
        = get_career_stat_from_datatip soup.stats_pullout sacks_datatip := rfl
    rw [this]
    exact hgen soup.stats_pullout sacks_datatip hsacks

/-- Witness for `gather_player_info_missing_marker` on the sample
quarterback page: the parse succeeds, `sacks` is `none`, and the
present stats are populated. -/
theorem gather_player_info_missing_marker_witness :
    sample_qb_soup.info = some sample_qb_info ∧
      findContents0 sample_qb_info.nameSpanContents = .ok "Sample Quarterback" ∧
      findContents0 sample_qb_info.affiliationContents = .ok "Team X" ∧
      bio_position sample_qb_info = .ok 'Q' ∧
      bio_height sample_qb_info = .ok 187 ∧
      findContents0 sample_qb_info.weightContents = .ok "220lb" ∧
      bio_birth sample_qb_info = .ok "1990-01-01" ∧
      stat_marker_missing sample_qb_soup.stats_pullout sacks_datatip = true ∧
      (gather_player_info sample_qb_soup
          = .ok ⟨"Sample Quarterback", "Team X", 'Q', 187, "220lb", "1990-01-01",
                 sample_qb_info.awardTexts,
                 build_career_stats sample_qb_soup.stats_pullout⟩ ∧
        (build_career_stats sample_qb_soup.stats_pullout).sacks = none ∧
        ∀ (d : Option StatsPulloutDiv) (tip : String),
          stat_marker_missing d tip = true →
            get_career_stat_from_datatip d tip = none) ∧
      (build_career_stats sample_qb_soup.stats_pullout).games_played = some "16" ∧
      (build_career_stats sample_qb_soup.stats_pullout).cmp_pct = some "66.3" ∧
      (build_career_stats sample_qb_soup.stats_pullout).passing_td = some "40" :=
  ⟨rfl, by decide, by decide, by decide, by decide, by decide, by decide,
    by decide,
    gather_player_info_missing_marker sample_qb_soup sample_qb_info
      "Sample Quarterback" "Team X" "220lb" "1990-01-01" 'Q' 187
      rfl (by decide) (by decide) (by decide) (by decide) (by decide)
      (by decide) (by decide),
    by decide, by decide, by decide⟩

/-- Each link occurrence contributes exactly one profile request to the
inner loop's trace, reset or not: nothing is ever retried. -/
theorem linkEvents_count (w : PlayerWorld) (links : List (List Char))
    (href : List Char) :
    (linkEvents w links).count (Event.fetchProfile href) = links.count href := by
  induction links with
  | nil => rfl
  | cons l rest ih =>
    simp only [linkEvents] at ih
    cases hp : w.profile l with
    | page soup =>
      simp [linkEvents, List.flatMap_cons, hp, List.count_append,
        List.count_cons, ih, beq_iff_eq]
    | connectionReset =>
      simp [linkEvents, List.flatMap_cons, hp, List.count_append,
        List.count_cons, ih, beq_iff_eq]

/-- Inner loop canonical form: when every link's outcome is caught, the
loop succeeds with the canonical trace and the canonical collected
profiles. -/
theorem processLinks_eq (w : PlayerWorld) (links : List (List Char))
    (h : links.all (profileParseCaught w)) :
    processLinks w links = .ok (linkEvents w links, collectedInfos w links) := by
  induction links with
  | nil => rfl
  | cons l rest ih =>
    simp only [List.all_cons, Bool.and_eq_true] at h
    have hrest := ih h.2
    cases hp : w.profile l with
    | connectionReset =>
      simp [processLinks, hp, hrest, linkEvents, collectedInfos,
        List.flatMap_cons, List.filterMap_cons]
    | page soup =>
      cases hg : gather_player_info soup with
      | ok info =>
        simp [processLinks, hp, hg, hrest, linkEvents, collectedInfos,
          List.flatMap_cons, List.filterMap_cons, Except.toOption]
      | error e =>
        have hcaught := h.1
        cases e with
        | attributeError m =>
          simp [processLinks, hp, hg, hrest, linkEvents, collectedInfos,
            List.flatMap_cons, List.filterMap_cons, Except.toOption]
        | assertionError m =>
          exact absurd hcaught (by simp [profileParseCaught, hp, hg])
        | injuryDataNotAvailableError m =>
          exact absurd hcaught (by simp [profileParseCaught, hp, hg])
        | valueError m =>
          exact absurd hcaught (by simp [profileParseCaught, hp, hg])
        | indexError m =>
          exact absurd hcaught (by simp [profileParseCaught, hp, hg])
        | typeError m =>
          exact absurd hcaught (by simp [profileParseCaught, hp, hg])
        | keyError m =>
          exact absurd hcaught (by simp [profileParseCaught, hp, hg])

/-- Outer loop canonical form: one index request per letter followed by
that letter's inner-loop trace, and the concatenated collected
profiles. -/
theorem processLetters_eq (w : PlayerWorld) (thr : Int)
    (L : Char → List (List Char)) :
    ∀ letters : List Char,
      (∀ c ∈ letters, gather_player_links c (w.indexPage c) thr = .ok (L c)) →
      (∀ c ∈ letters, (L c).all (profileParseCaught w)) →
      processLetters w thr letters
        = .ok (letters.flatMap (fun c => Event.fetchIndex c :: linkEvents w (L c)),
               letters.flatMap (fun c => collectedInfos w (L c))) := by
  intro letters
  induction letters with
  | nil => intro _ _; rfl
  | cons c rest ih =>
    intro h1 h2
    have hc1 := h1 c (List.mem_cons_self c rest)
    have hc2 := h2 c (List.mem_cons_self c rest)
    have hrest := ih (fun d hd => h1 d (List.mem_cons_of_mem c hd))
      (fun d hd => h2 d (List.mem_cons_of_mem c hd))
    simp [processLetters, hc1, processLinks_eq w (L c) hc2, hrest,
      List.flatMap_cons]

/-- Each link occurrence across all letters contributes exactly one
profile request to the full driver trace. -/
theorem letterEvents_count (w : PlayerWorld) (L : Char → List (List Char))
    (letters : List Char) (href : List Char) :
    (letters.flatMap (fun c => Event.fetchIndex c :: linkEvents w (L c))).count
        (Event.fetchProfile href)
      = (letters.flatMap L).count href := by
  induction letters with
  | nil => rfl
  | cons c rest ih =>
    simp [List.flatMap_cons, List.count_append, List.count_cons, ih,
      linkEvents_count, beq_iff_eq]

/-- C9: in the player collection driver, every planned profile request
is issued exactly once — a connection reset is followed immediately by a
5-second sleep and the player is skipped (contributing nothing to the
collected profiles), and no request is ever retried: the number of
profile requests for any href equals its number of occurrences among
the discovered links. -/
theorem scrape_player_no_retry (w : PlayerWorld) (thr : Int)
    (letters : List Char) (L : Char → List (List Char))
    (h1 : ∀ c ∈ letters, gather_player_links c (w.indexPage c) thr = .ok (L c))
    (h2 : ∀ c ∈ letters, (L c).all (profileParseCaught w)) :
    processLetters w thr letters
        = .ok (letters.flatMap (fun c => Event.fetchIndex c :: linkEvents w (L c)),
               letters.flatMap (fun c => collectedInfos w (L c))) ∧
      ∀ href,
        (letters.flatMap (fun c => Event.fetchIndex c :: linkEvents w (L c))).count
            (Event.fetchProfile href)
          = (letters.flatMap L).count href :=
  ⟨processLetters_eq w thr L letters h1 h2,
    fun href => letterEvents_count w L letters href⟩

/-- Witness for `scrape_player_no_retry` on `reset_world`: the one
resettable link is requested exactly once, followed by a 5-second
sleep, and no profile is collected. -/
theorem scrape_player_no_retry_witness :
    (∀ c ∈ ALPHABETS_LIST,
        gather_player_links c (reset_world.indexPage c) 2016
          = .ok (reset_links c)) ∧
      (∀ c ∈ ALPHABETS_LIST, (reset_links c).all (profileParseCaught reset_world)) ∧
      (processLetters reset_world 2016 ALPHABETS_LIST
          = .ok (ALPHABETS_LIST.flatMap
                   (fun c => Event.fetchIndex c :: linkEvents reset_world (reset_links c)),
                 ALPHABETS_LIST.flatMap
                   (fun c => collectedInfos reset_world (reset_links c))) ∧
        ∀ href,
          (ALPHABETS_LIST.flatMap
              (fun c => Event.fetchIndex c :: linkEvents reset_world (reset_links c))).count
              (Event.fetchProfile href)
            = (ALPHABETS_LIST.flatMap reset_links).count href) ∧
      (ALPHABETS_LIST.flatMap reset_links).count ("/players/B/rrrr.htm".toList) = 1 ∧
      linkEvents reset_world (reset_links 'B')
        = [.fetchProfile ("/players/B/rrrr.htm".toList), .sleep 5] ∧
      ALPHABETS_LIST.flatMap (fun c => collectedInfos reset_world (reset_links c)) = [] :=
  ⟨by decide, by decide,
    scrape_player_no_retry reset_world 2016 ALPHABETS_LIST reset_links
      (by decide) (by decide),
    by decide, by decide, by decide⟩

/-- C1 (code behavior at the failing input): on a run that collects two
profiles agreeing on all six identity-key fields and differing only in
`career_stats`, the deduplicated DataFrame built inside
`scrape_nfl_player_data` retains exactly the first of them — but the
function itself returns `None` (its final line is a bare expression, not
a `return` statement), never the DataFrame its own annotation
promises. -/
theorem scrape_player_data_returns_none :
    scraped_players_data_df dup_world 2016
        = .ok [⟨"Sample Quarterback", "Team X", 'Q', 187, "220lb", "1990-01-01",
                [], build_career_stats dup_stats1⟩] ∧
      scrape_nfl_player_data dup_world 2016 = .ok none ∧
      ∀ df : List PlayerInfo,
        scrape_nfl_player_data dup_world 2016 ≠ .ok (some df) := by
  refine ⟨by decide, by decide, ?_⟩
  intro df h
  have h2 : scrape_nfl_player_data dup_world 2016 = .ok none := by decide
  rw [h2] at h
  simp at h

end Scraper
